import Mathlib

/-
Verification of the mdio-cpp compatibility-check scripts.

The repository consists of four small Python scripts:
  * src/mdio/xarray_compatibility_test.py        (plain xarray check)
  * src/mdio/regression_tests/xarray_compatibility_test.py (guarded xarray check)
  * src/mdio/zarr_compatibility.py               (zarr-only check)
  * src/examples/xarray_integration/src/xarray_integration.py (example)

We shallowly embed the check functions and the example's main routine.
The external library calls (xr.open_zarr, zarr.open) are modelled as
oracle parameters mapping the call's arguments to an outcome: either a
successfully opened dataset, or an exception carrying a message and a
type name.  Side effects are recorded as an explicit event trace; the
on-disk store is a map from paths to datasets, and only an explicit
store-write event changes it.
-/

namespace Mdio

/-- A dataset handle as returned by the external open call.  Coordinate
variables and data variables are maps from names to value lists; values
are modelled as rationals (the example only ever writes the exactly
representable constant 1.0). -/
structure Dataset where
  coords : List (String × List Rat)
  vars : List (String × List Rat)
deriving DecidableEq, Repr

/-- Keyword arguments of the xr.open_zarr call made by the check
functions and the example: positional path, consolidated=...,
mask_and_scale=..., chunks=... (None modelled as none). -/
structure XrOpenArgs where
  path : String
  consolidated : Bool
  mask_and_scale : Bool
  chunks : Option Nat
deriving DecidableEq, Repr

/-- Outcome of an external open call: success with a bound dataset, or a
raised exception with its message and its type's name. -/
inductive OpenResult where
  | ok (ds : Dataset)
  | exc (msg : String) (ty : String)
deriving DecidableEq, Repr

/-- Observable effects of a run: external open calls, lines printed to
standard output, and store writes (to_zarr with a mode string). -/
inductive Event where
  | openZarr (args : XrOpenArgs)
  | zarrOpen (path : String)
  | printLine (s : String)
  | printDataset (ds : Dataset)
  | printCoords (name : String) (vals : List Rat)
  | storeWrite (path : String) (mode : String) (ds : Dataset)
deriving DecidableEq, Repr

/-- Result of a check-function invocation: the events it performed and
the integer it returned. -/
structure CheckRun where
  events : List Event
  exitCode : Nat
deriving DecidableEq, Repr

/-- The lines a trace prints to standard output. -/
def outputOf (es : List Event) : List String :=
  es.filterMap fun e =>
    match e with
    | .printLine s => some s
    | _ => none

/-- The xr.open_zarr invocations recorded in a trace. -/
def xrCallsOf (es : List Event) : List XrOpenArgs :=
  es.filterMap fun e =>
    match e with
    | .openZarr a => some a
    | _ => none

/-- The argument record with which test_xarray_dataset invokes
xr.open_zarr: the path, consolidated set to the "True" exact-match
conversion of the flag string, mask_and_scale=False, chunks=None. -/
def xrArgs (file_path : String) (consolidated_metadata : String) : XrOpenArgs :=
  { path := file_path,
    consolidated := if consolidated_metadata = "True" then true else false,
    mask_and_scale := false,
    chunks := none }

/-- Embedding of test_xarray_dataset from
src/mdio/xarray_compatibility_test.py (the definition in
src/mdio/regression_tests/xarray_compatibility_test.py is textually
identical up to formatting): convert the flag by exact comparison with
"True", call xr.open_zarr with the given path, the converted flag,
mask_and_scale=False and chunks=None; return 0 on success, and on any
exception print the two diagnostic lines and return 0xff.  The Python
try/except catches every exception, so the embedding is a total
function on the oracle's outcome. -/
def test_xarray_dataset (open_zarr : XrOpenArgs → OpenResult)
    (file_path : String) (consolidated_metadata : String) : CheckRun :=
  match open_zarr (xrArgs file_path consolidated_metadata) with
  | .ok _ =>
      { events := [.openZarr (xrArgs file_path consolidated_metadata)],
        exitCode := 0 }
  | .exc msg ty =>
      { events := [.openZarr (xrArgs file_path consolidated_metadata),
          .printLine ("Failed to open dataset: " ++ msg),
          .printLine ("Exception type: " ++ ty)],
        exitCode := 0xff }

/-- Embedding of test_zarr_dataset from src/mdio/zarr_compatibility.py:
call zarr.open on the path; return 0 on success, and on any exception
print a single line with the exception message (the source prints no
type-name line here) and return 0xff. -/
def test_zarr_dataset (zarr_open : String → OpenResult)
    (file_path : String) : CheckRun :=
  match zarr_open file_path with
  | .ok _ =>
      { events := [.zarrOpen file_path], exitCode := 0 }
  | .exc msg _ty =>
      { events := [.zarrOpen file_path,
          .printLine ("Failed to open Variable: " ++ msg)],
        exitCode := 0xff }

/-- The on-disk world: which dataset, if any, is stored at each path. -/
def Store := String → Option Dataset

/-- Effect of one event on the store: only a store write changes it. -/
def applyEvent (st : Store) (e : Event) : Store :=
  match e with
  | .storeWrite p _mode ds => fun q => if q = p then some ds else st q
  | _ => st

/-- Effect of a trace on the store, applied left to right. -/
def applyEvents (st : Store) (es : List Event) : Store :=
  es.foldl applyEvent st

/-- Whether an event is a store write. -/
def isStoreWrite : Event → Bool
  | .storeWrite _ _ _ => true
  | _ => false

/-- Whether the module-level import of xarray succeeds in the current
environment. -/
inductive ImportOutcome where
  | ok
  | importError
deriving DecidableEq, Repr

/-- Module-level steps of a script run, in order. -/
inductive ScriptEvent where
  | importAttempt (lib : String)
  | printLine (s : String)
  | parseArgs
  | runCheck
deriving DecidableEq, Repr

/-- How the process ends: an explicit exit code, or an exception that
propagates out of the module uncaught. -/
inductive ProcessOutcome where
  | exited (code : Nat)
  | uncaught (excType : String)
deriving DecidableEq, Repr

/-- Embedding of the module-level control flow of
src/mdio/regression_tests/xarray_compatibility_test.py: the import of
xarray is wrapped in try/except ImportError which prints a line and
calls sys.exit(0xfd); only if the import succeeds does the main block
parse the two positional arguments and run the check, exiting with its
return value. -/
def regression_xarray_script (imp : ImportOutcome)
    (open_zarr : XrOpenArgs → OpenResult)
    (file_path : String) (consolidated_metadata : String) :
    List ScriptEvent × ProcessOutcome :=
  match imp with
  | .importError =>
      ([.importAttempt "xarray", .printLine "Failed to import xarray."],
       .exited 0xfd)
  | .ok =>
      ([.importAttempt "xarray", .parseArgs, .runCheck],
       .exited (test_xarray_dataset open_zarr file_path consolidated_metadata).exitCode)

/-- Embedding of the module-level control flow of
src/mdio/xarray_compatibility_test.py: the imports at lines 15-17 are
bare (no try/except), so a failing import of xarray raises ImportError
out of the module and the process dies with an uncaught traceback,
never reaching argument parsing and never calling sys.exit(0xfd). -/
def plain_xarray_script (imp : ImportOutcome)
    (open_zarr : XrOpenArgs → OpenResult)
    (file_path : String) (consolidated_metadata : String) :
    List ScriptEvent × ProcessOutcome :=
  match imp with
  | .importError =>
      ([.importAttempt "xarray"], .uncaught "ImportError")
  | .ok =>
      ([.importAttempt "xarray", .parseArgs, .runCheck],
       .exited (test_xarray_dataset open_zarr file_path consolidated_metadata).exitCode)

/-- Look up a data variable of a dataset by name. -/
def lookupVar (ds : Dataset) (name : String) : Option (List Rat) :=
  (ds.vars.find? (fun p => p.1 == name)).map (fun p => p.2)

/-- Replace the data of the named variable (the in-place assignment
dataset["image"].data[:] = value). -/
def setVar (ds : Dataset) (name : String) (data : List Rat) : Dataset :=
  { ds with vars := ds.vars.map (fun p => if p.1 == name then (p.1, data) else p) }

/-- Every n-th element of a list, the slice l[::n]. -/
def everyNth (n : Nat) (l : List α) : List α :=
  (l.enum.filter (fun p => p.1 % n = 0)).map (fun p => p.2)

/-- Embedding of print_image_coordinates from
src/examples/xarray_integration/src/xarray_integration.py: for each of
the coordinates inline, crossline, depth, print its values decimated by
100 if present, otherwise print a not-found line. -/
def print_image_coordinates (coords : List (String × List Rat)) : List Event :=
  (["inline", "crossline", "depth"]).map fun coord =>
    match coords.find? (fun p => p.1 == coord) with
    | some p => .printCoords coord (everyNth 100 p.2)
    | none => .printLine (coord ++ " coordinate not found in the dataset.")

/-- The argument record of the example's open call:
xr.open_zarr(path, consolidated=True, mask_and_scale=False, chunks=None). -/
def mainOpenArgs (path : String) : XrOpenArgs :=
  { path := path, consolidated := true, mask_and_scale := false, chunks := none }

/-- Result of the example's main: a completed trace, or an uncaught
exception (the example has no error handling). -/
inductive MainResult where
  | finished (events : List Event)
  | uncaughtExc (excType : String) (events : List Event)
deriving DecidableEq, Repr

/-- Embedding of main from
src/examples/xarray_integration/src/xarray_integration.py: open the
store at path with consolidated=True, mask_and_scale=False, chunks=None
(modelled as reading the store map; a missing path raises), print the
dataset and the decimated image coordinates, assign 1.0 to every
element of the image variable's data, then rewrite the whole dataset to
the same path with to_zarr(path, mode="w"). -/
def main (st : Store) (path : String) : MainResult :=
  match st path with
  | none => .uncaughtExc "FileNotFoundError" []
  | some dataset =>
    match lookupVar dataset "image" with
    | none =>
        .uncaughtExc "KeyError"
          [.openZarr (mainOpenArgs path), .printDataset dataset]
    | some image =>
        .finished
          ([.openZarr (mainOpenArgs path),
            .printDataset dataset,
            .printLine "Test that the coords are populated for the image variable:"]
           ++ print_image_coordinates dataset.coords
           ++ [.storeWrite path "w"
                 (setVar dataset "image" (image.map (fun _ => (1 : Rat))))])

/-- A sample open oracle whose call always raises (message "boom", type
ValueError). -/
def excOracle : XrOpenArgs → OpenResult :=
  fun _ => .exc "boom" "ValueError"

/-- A sample zarr.open oracle whose call always raises. -/
def zarrExcOracle : String → OpenResult :=
  fun _ => .exc "bad store" "KeyError"

/-- A sample dataset. -/
def dsA : Dataset := ⟨[], [("image", [0])]⟩

/-- A second, different sample dataset. -/
def dsB : Dataset := ⟨[], [("image", [2, 3])]⟩

/-- A sample dataset with an inline coordinate and an image variable. -/
def dsC : Dataset := ⟨[("inline", [0, 5])], [("image", [7, 8, 9])]⟩

/-- A sample open oracle that always succeeds with dsA. -/
def okOracleA : XrOpenArgs → OpenResult := fun _ => .ok dsA

/-- A sample open oracle that always succeeds with dsB. -/
def okOracleB : XrOpenArgs → OpenResult := fun _ => .ok dsB

/-- A sample zarr.open oracle that always succeeds with dsA. -/
def zarrOkA : String → OpenResult := fun _ => .ok dsA

/-- A sample zarr.open oracle that always succeeds with dsB. -/
def zarrOkB : String → OpenResult := fun _ => .ok dsB

/-- A sample store holding dsC at the default example path. -/
def storeC : Store :=
  fun q => if q = "test.mdio" then some dsC else none

/-- An event that is not a store write leaves the store unchanged. -/
theorem applyEvent_not_write (st : Store) (e : Event)
    (h : isStoreWrite e = false) : applyEvent st e = st := by
  cases e
  case storeWrite p m d => simp [isStoreWrite] at h
  all_goals rfl

/-- A trace with no store write leaves the store unchanged. -/
theorem applyEvents_not_write (st : Store) (es : List Event)
    (h : ∀ e ∈ es, isStoreWrite e = false) : applyEvents st es = st := by
  induction es generalizing st with
  | nil => rfl
  | cons e t ih =>
      have he := h e (by simp)
      have ht : ∀ x ∈ t, isStoreWrite x = false := fun x hx => h x (by simp [hx])
      calc applyEvents st (e :: t) = applyEvents (applyEvent st e) t := rfl
        _ = applyEvent st e := ih (applyEvent st e) ht
        _ = st := applyEvent_not_write st e he

/-- Applying a concatenated trace applies the two parts in order. -/
theorem applyEvents_append (st : Store) (l1 l2 : List Event) :
    applyEvents st (l1 ++ l2) = applyEvents (applyEvents st l1) l2 := by
  simp [applyEvents, List.foldl_append]

/-- The coordinate-printing helper only prints; it never writes. -/
theorem print_image_coordinates_not_write (cs : List (String × List Rat)) :
    ∀ e ∈ print_image_coordinates cs, isStoreWrite e = false := by
  intro e he
  simp only [print_image_coordinates] at he
  rcases List.mem_map.1 he with ⟨c, hc, rfl⟩
  cases cs.find? (fun p => p.1 == c) <;> rfl

/-- Updating an association list entry that is present makes the lookup
return the new value. -/
theorem find?_map_update (vs : List (String × List Rat)) (name : String)
    (l : List Rat)
    (h : ((vs.find? (fun p => p.1 == name)).map (fun p => p.2)).isSome) :
    ((vs.map (fun p => if p.1 == name then (p.1, l) else p)).find?
        (fun p => p.1 == name)).map (fun p => p.2) = some l := by
  induction vs with
  | nil => simp [List.find?] at h
  | cons a t ih =>
      cases hc : (a.1 == name) with
      | true =>
          simp only [List.map_cons, if_pos hc]
          rw [List.find?_cons_of_pos (p := fun q : String × List Rat => q.1 == name)
            (a := (a.1, l)) _ hc]
          rfl
      | false =>
          have hneg : ¬ ((a.1 == name) = true) := by simp [hc]
          rw [List.find?_cons_of_neg (p := fun q : String × List Rat => q.1 == name) _ hneg] at h
          simp only [List.map_cons, if_neg hneg]
          rw [List.find?_cons_of_neg (p := fun q : String × List Rat => q.1 == name) _ hneg]
          exact ih h

/-- Setting the data of a variable that is present makes its lookup
return the new data. -/
theorem lookupVar_setVar (ds : Dataset) (name : String) (l old : List Rat)
    (h : lookupVar ds name = some old) :
    lookupVar (setVar ds name l) name = some l := by
  have hs : ((ds.vars.find? (fun p => p.1 == name)).map (fun p => p.2)).isSome := by
    unfold lookupVar at h
    rw [h]
    rfl
  exact find?_map_update ds.vars name l hs

/-- C1: every invocation of test_xarray_dataset returns (it catches all
exceptions of the open call at its top level, so its result is always 0
or 0xff), and when the open call raises an exception the run returns
0xff and prints a line containing the exception's message and a line
containing the exception's type name. -/
theorem xarray_check_exception_handling (open_zarr : XrOpenArgs → OpenResult)
    (fp cm : String) :
    ((test_xarray_dataset open_zarr fp cm).exitCode = 0 ∨
      (test_xarray_dataset open_zarr fp cm).exitCode = 0xff) ∧
    (∀ msg ty, open_zarr (xrArgs fp cm) = .exc msg ty →
      (test_xarray_dataset open_zarr fp cm).exitCode = 0xff ∧
      outputOf (test_xarray_dataset open_zarr fp cm).events =
        ["Failed to open dataset: " ++ msg, "Exception type: " ++ ty]) := by
  cases h : open_zarr (xrArgs fp cm) with
  | ok ds =>
      refine ⟨Or.inl ?_, ?_⟩
      · simp [test_xarray_dataset, h]
      · intro msg ty hexc
        simp at hexc
  | exc msg ty =>
      refine ⟨Or.inr ?_, ?_⟩
      · simp [test_xarray_dataset, h]
      · intro msg2 ty2 hexc
        simp only [OpenResult.exc.injEq] at hexc
        obtain ⟨rfl, rfl⟩ := hexc
        simp [test_xarray_dataset, h, outputOf]

/-- C1 witness: at a concrete always-raising oracle, the check returns
0xff and prints the message and the type name. -/
theorem xarray_check_exception_handling_witness :
    excOracle (xrArgs "store.mdio" "True") = .exc "boom" "ValueError" ∧
    (test_xarray_dataset excOracle "store.mdio" "True").exitCode = 0xff ∧
    outputOf (test_xarray_dataset excOracle "store.mdio" "True").events =
      ["Failed to open dataset: boom", "Exception type: ValueError"] := by
  have h := (xarray_check_exception_handling excOracle "store.mdio" "True").2
    "boom" "ValueError" rfl
  exact ⟨rfl, h.1, h.2.trans (by decide)⟩

/-- C2: test_xarray_dataset requests the open with consolidation equal
to the exact-match conversion of the flag string, and that boolean is
true exactly when the flag string is the literal "True". -/
theorem consolidated_flag_exact_match (open_zarr : XrOpenArgs → OpenResult)
    (fp cm : String) :
    xrCallsOf (test_xarray_dataset open_zarr fp cm).events = [xrArgs fp cm] ∧
    ((xrArgs fp cm).consolidated = true ↔ cm = "True") := by
  constructor
  · cases h : open_zarr (xrArgs fp cm) <;>
      simp [test_xarray_dataset, h, xrCallsOf]
  · unfold xrArgs
    by_cases hc : cm = "True" <;> simp [hc]

/-- C5: when the open call succeeds, both check functions return 0 and
print nothing. -/
theorem success_returns_zero (open_zarr : XrOpenArgs → OpenResult)
    (zarr_open : String → OpenResult) (fp cm : String) (d1 d2 : Dataset)
    (hx : open_zarr (xrArgs fp cm) = .ok d1) (hz : zarr_open fp = .ok d2) :
    (test_xarray_dataset open_zarr fp cm).exitCode = 0 ∧
    outputOf (test_xarray_dataset open_zarr fp cm).events = [] ∧
    (test_zarr_dataset zarr_open fp).exitCode = 0 ∧
    outputOf (test_zarr_dataset zarr_open fp).events = [] := by
  refine ⟨?_, ?_, ?_, ?_⟩ <;>
    simp [test_xarray_dataset, test_zarr_dataset, hx, hz, outputOf]

/-- C5 witness: at a concrete always-succeeding oracle, both checks
return 0 with empty output. -/
theorem success_returns_zero_witness :
    okOracleA (xrArgs "store.mdio" "True") = .ok dsA ∧
    zarrOkA "store.mdio" = .ok dsA ∧
    (test_xarray_dataset okOracleA "store.mdio" "True").exitCode = 0 ∧
    outputOf (test_xarray_dataset okOracleA "store.mdio" "True").events = [] ∧
    (test_zarr_dataset zarrOkA "store.mdio").exitCode = 0 ∧
    outputOf (test_zarr_dataset zarrOkA "store.mdio").events = [] := by
  have h := success_returns_zero okOracleA zarrOkA "store.mdio" "True" dsA dsA
    rfl rfl
  exact ⟨rfl, rfl, h.1, h.2.1, h.2.2.1, h.2.2.2⟩

/-- C6: the check invokes the open exactly once, with the given path,
consolidation per the parsed flag, mask_and_scale false and no chunk
override. -/
theorem open_call_arguments (open_zarr : XrOpenArgs → OpenResult)
    (fp cm : String) :
    xrCallsOf (test_xarray_dataset open_zarr fp cm).events = [xrArgs fp cm] ∧
    (xrArgs fp cm).path = fp ∧
    (xrArgs fp cm).consolidated = (if cm = "True" then true else false) ∧
    (xrArgs fp cm).mask_and_scale = false ∧
    (xrArgs fp cm).chunks = none := by
  refine ⟨?_, rfl, rfl, rfl, rfl⟩
  cases h : open_zarr (xrArgs fp cm) <;>
    simp [test_xarray_dataset, h, xrCallsOf]

/-- C7: the exit code is a deterministic function of the outcome of the
external open call: two environments that agree on that outcome give
the same exit code, hence two runs against the same unmodified store
agree. -/
theorem exit_code_deterministic (o1 o2 : XrOpenArgs → OpenResult)
    (z1 z2 : String → OpenResult) (fp cm : String)
    (hx : o1 (xrArgs fp cm) = o2 (xrArgs fp cm)) (hz : z1 fp = z2 fp) :
    (test_xarray_dataset o1 fp cm).exitCode =
      (test_xarray_dataset o2 fp cm).exitCode ∧
    (test_zarr_dataset z1 fp).exitCode = (test_zarr_dataset z2 fp).exitCode := by
  constructor
  · unfold test_xarray_dataset
    rw [hx]
  · unfold test_zarr_dataset
    rw [hz]

/-- C7 witness: two concrete runs with environments agreeing on the
open outcome give equal exit codes. -/
theorem exit_code_deterministic_witness :
    (test_xarray_dataset excOracle "store.mdio" "True").exitCode =
      (test_xarray_dataset excOracle "store.mdio" "True").exitCode ∧
    (test_zarr_dataset zarrExcOracle "store.mdio").exitCode =
      (test_zarr_dataset zarrExcOracle "store.mdio").exitCode :=
  exit_code_deterministic excOracle excOracle zarrExcOracle zarrExcOracle
    "store.mdio" "True" rfl rfl

/-- C3 counterexample: in the plain variant
(src/mdio/xarray_compatibility_test.py) a failing xarray import does
not make the process exit with 0xfd: the ImportError propagates
uncaught, so the claim is false for that xarray compatibility-check
process. -/
theorem plain_script_import_failure_not_fd :
    (plain_xarray_script .importError excOracle "store.mdio" "True").2 =
      ProcessOutcome.uncaught "ImportError" ∧
    (plain_xarray_script .importError excOracle "store.mdio" "True").2 ≠
      ProcessOutcome.exited 0xfd := by
  exact ⟨rfl, by decide⟩

/-- C3 amended: in the regression-tests variant, a failing import of
xarray makes the process exit with 0xfd, and argument parsing never
happens in that run (the plain variant instead lets the ImportError
propagate uncaught). -/
theorem regression_script_import_exit_fd (open_zarr : XrOpenArgs → OpenResult)
    (fp cm : String) :
    (regression_xarray_script .importError open_zarr fp cm).2 =
      .exited 0xfd ∧
    ScriptEvent.parseArgs ∉ (regression_xarray_script .importError open_zarr fp cm).1 := by
  constructor
  · rfl
  · simp [regression_xarray_script]

/-- C4 counterexample: on a failing open with exception type KeyError,
test_zarr_dataset returns 0xff but no printed line contains the type
name KeyError as a substring, so the zarr check does not log the
exception's type name. -/
theorem zarr_check_no_type_name :
    (test_zarr_dataset (fun _ => .exc "boom" "KeyError") "store.zarr").exitCode = 0xff ∧
    ¬ ∃ l ∈ outputOf
        (test_zarr_dataset (fun _ => .exc "boom" "KeyError") "store.zarr").events,
        "KeyError".data <:+: l.data := by
  exact ⟨rfl, by decide⟩

/-- C4 amended: test_zarr_dataset maps any exception from the open call
to exit code 0xff with a single diagnostic line containing the
exception's message (but no type-name line), and maps success to 0. -/
theorem zarr_check_error_mapping (zarr_open : String → OpenResult)
    (fp : String) :
    (∀ msg ty, zarr_open fp = .exc msg ty →
      (test_zarr_dataset zarr_open fp).exitCode = 0xff ∧
      outputOf (test_zarr_dataset zarr_open fp).events =
        ["Failed to open Variable: " ++ msg]) ∧
    (∀ ds, zarr_open fp = .ok ds →
      (test_zarr_dataset zarr_open fp).exitCode = 0) := by
  constructor
  · intro msg ty hexc
    refine ⟨?_, ?_⟩ <;> simp [test_zarr_dataset, hexc, outputOf]
  · intro ds hok
    simp [test_zarr_dataset, hok]

/-- C4 amended witness: at a concrete always-raising oracle, the zarr
check returns 0xff and prints the single message line. -/
theorem zarr_check_error_mapping_witness :
    zarrExcOracle "store.zarr" = .exc "bad store" "KeyError" ∧
    (test_zarr_dataset zarrExcOracle "store.zarr").exitCode = 0xff ∧
    outputOf (test_zarr_dataset zarrExcOracle "store.zarr").events =
      ["Failed to open Variable: bad store"] := by
  have h := (zarr_check_error_mapping zarrExcOracle "store.zarr").1
    "bad store" "KeyError" rfl
  exact ⟨rfl, h.1, h.2.trans (by decide)⟩

/-- C8: neither check function ever writes to the store: applying the
whole event trace of a run to any store leaves it unchanged. -/
theorem checks_do_not_mutate_store (st : Store)
    (open_zarr : XrOpenArgs → OpenResult) (zarr_open : String → OpenResult)
    (fp cm : String) :
    applyEvents st (test_xarray_dataset open_zarr fp cm).events = st ∧
    applyEvents st (test_zarr_dataset zarr_open fp).events = st := by
  constructor
  · cases h : open_zarr (xrArgs fp cm) <;>
      simp [test_xarray_dataset, h, applyEvents, applyEvent]
  · cases h : zarr_open fp <;>
      simp [test_zarr_dataset, h, applyEvents, applyEvent]

/-- C9: when the open call succeeds the bound dataset is never
inspected: two environments whose opens succeed with any two datasets
give identical whole runs, with exit code 0 and empty output. -/
theorem success_independent_of_dataset (o1 o2 : XrOpenArgs → OpenResult)
    (z1 z2 : String → OpenResult) (fp cm : String) (d1 d2 d3 d4 : Dataset)
    (h1 : o1 (xrArgs fp cm) = .ok d1) (h2 : o2 (xrArgs fp cm) = .ok d2)
    (h3 : z1 fp = .ok d3) (h4 : z2 fp = .ok d4) :
    test_xarray_dataset o1 fp cm = test_xarray_dataset o2 fp cm ∧
    (test_xarray_dataset o1 fp cm).exitCode = 0 ∧
    outputOf (test_xarray_dataset o1 fp cm).events = [] ∧
    test_zarr_dataset z1 fp = test_zarr_dataset z2 fp ∧
    (test_zarr_dataset z1 fp).exitCode = 0 ∧
    outputOf (test_zarr_dataset z1 fp).events = [] := by
  refine ⟨?_, ?_, ?_, ?_, ?_, ?_⟩ <;>
    simp [test_xarray_dataset, test_zarr_dataset, h1, h2, h3, h4, outputOf]

/-- C9 witness: two oracles succeeding with different concrete datasets
give identical runs. -/
theorem success_independent_of_dataset_witness :
    okOracleA (xrArgs "s" "True") = .ok dsA ∧
    okOracleB (xrArgs "s" "True") = .ok dsB ∧
    zarrOkA "s" = .ok dsA ∧
    zarrOkB "s" = .ok dsB ∧
    test_xarray_dataset okOracleA "s" "True" =
      test_xarray_dataset okOracleB "s" "True" ∧
    test_zarr_dataset zarrOkA "s" = test_zarr_dataset zarrOkB "s" := by
  have h := success_independent_of_dataset okOracleA okOracleB zarrOkA zarrOkB
    "s" "True" dsA dsB dsA dsB rfl rfl rfl rfl
  exact ⟨rfl, rfl, rfl, rfl, h.1, h.2.2.2.1⟩

/-- C10: a successful run of the example's main rewrites the store at
the path with mode "w": afterwards the stored dataset is the opened one
with every element of its image variable set to 1, so the stored image
data is all ones and the prior contents at that path are replaced. -/
theorem example_main_overwrites_image (st : Store) (p : String)
    (ds : Dataset) (img : List Rat)
    (h1 : st p = some ds) (h2 : lookupVar ds "image" = some img) :
    ∃ es, main st p = .finished es ∧
      Event.storeWrite p "w" (setVar ds "image" (img.map (fun _ => (1 : Rat)))) ∈ es ∧
      applyEvents st es p =
        some (setVar ds "image" (img.map (fun _ => (1 : Rat)))) ∧
      lookupVar (setVar ds "image" (img.map (fun _ => (1 : Rat)))) "image" =
        some (img.map (fun _ => (1 : Rat))) ∧
      ∀ x ∈ img.map (fun _ => (1 : Rat)), x = 1 := by
  have hmain : main st p = .finished
      ([.openZarr (mainOpenArgs p), .printDataset ds,
        .printLine "Test that the coords are populated for the image variable:"]
       ++ print_image_coordinates ds.coords
       ++ [.storeWrite p "w" (setVar ds "image" (img.map (fun _ => (1 : Rat))))]) := by
    simp [main, h1, h2]
  refine ⟨_, hmain, ?_, ?_, ?_, ?_⟩
  · simp
  · have hpre : ∀ e ∈ ([Event.openZarr (mainOpenArgs p), .printDataset ds,
        .printLine "Test that the coords are populated for the image variable:"]
        ++ print_image_coordinates ds.coords), isStoreWrite e = false := by
      intro e he
      rcases List.mem_append.1 he with hm | hm
      · simp at hm
        rcases hm with rfl | rfl | rfl <;> rfl
      · exact print_image_coordinates_not_write ds.coords e hm
    rw [applyEvents_append, applyEvents_not_write st _ hpre]
    simp [applyEvents, applyEvent]
  · exact lookupVar_setVar ds "image" _ img h2
  · intro x hx
    rcases List.mem_map.1 hx with ⟨y, hy, rfl⟩
    rfl

/-- C10 witness: a concrete store is rewritten with an all-ones image
variable by a concrete successful run. -/
theorem example_main_overwrites_image_witness :
    storeC "test.mdio" = some dsC ∧
    lookupVar dsC "image" = some [7, 8, 9] ∧
    ∃ es, main storeC "test.mdio" = .finished es ∧
      applyEvents storeC es "test.mdio" =
        some (setVar dsC "image" ([(7 : Rat), 8, 9].map (fun _ => (1 : Rat)))) := by
  have h := example_main_overwrites_image storeC "test.mdio" dsC [7, 8, 9]
    (by rfl) (by rfl)
  obtain ⟨es, he1, _, he3, _, _⟩ := h
  exact ⟨rfl, rfl, es, he1, he3⟩

end Mdio
